import Mathlib

/-
Verification of the transaction CRUD service (FastAPI + SQLAlchemy store +
Redis cache) against its specification.

The embedding models:
  * the Transaction entity (src/app/models/transaction.py, src/app/schemas.py),
  * pydantic validation of TransactionCreate (src/app/schemas.py),
  * the four request handlers and the health endpoint
    (src/app/routers/transactions.py), as state transformers over an
    explicit application state (durable store + string-keyed TTL cache),
    each returning its result, the successor state, and the ordered list
    of backend effects it performed,
  * the error-swallowing Cache client wrapper (src/app/cache.py).

The cache is a flat string-keyed map, as in Redis: `delete key` removes the
literal key only (Redis DEL does not interpret glob patterns).  Timestamps
are modelled by a logical clock `now`; amounts by rationals.
-/

namespace ExpenseTracker

/-- A persisted transaction row, fields as in the SQLAlchemy model
(src/app/models/transaction.py) and in TransactionResponse. -/
structure TransactionRow where
  id : Nat
  amount : Rat
  currency : String
  description : Option String
  merchant : String
  date : Nat
  createdAt : Nat
  updatedAt : Option Nat
deriving Repr, DecidableEq

/-- The request body of POST /transactions (schemas.TransactionCreate).
`none` models an omitted optional JSON field; `merchant` is required but a
request may still omit it, hence Option. -/
structure TransactionCreate where
  amount : Rat
  currency : Option String
  description : Option String
  merchant : Option String
deriving Repr, DecidableEq

/-- A create request that passed pydantic validation, with the currency
default applied. -/
structure ValidatedCreate where
  amount : Rat
  currency : String
  description : Option String
  merchant : String
deriving Repr, DecidableEq

/-- Response of GET /transactions (schemas.TransactionList). -/
structure TransactionList where
  transactions : List TransactionRow
  total : Nat
deriving Repr, DecidableEq

/-- Response of GET /health (schemas.HealthResponse, minus the timestamp). -/
structure HealthResponse where
  status : String
  database : String
  redis : String
deriving Repr, DecidableEq

/-- A JSON document stored in the cache: either a serialized single
transaction or a serialized list page. -/
inductive CacheValue where
  | item (t : TransactionRow)
  | page (p : TransactionList)
deriving Repr, DecidableEq

/-- A cache entry: the stored value together with the TTL (seconds) it was
set with. -/
structure CacheEntry where
  val : CacheValue
  ttl : Nat
deriving Repr, DecidableEq

/-- The application state: the durable store (rows in insertion order, the
authoritative data), the next id the store will assign, the cache contents
(a flat string-keyed map, modelled as an association list), and a logical
clock supplying the store-assigned timestamps. -/
structure AppState where
  store : List TransactionRow
  nextId : Nat
  cache : List (String × CacheEntry)
  now : Nat
deriving Repr, DecidableEq

/-- One backend side effect of a handler, in the order performed. -/
inductive Effect where
  | storeQuery
  | storeInsert
  | storeDelete
  | cacheGet (key : String)
  | cacheSet (key : String) (ttl : Nat)
  | cacheDelete (key : String)
deriving Repr, DecidableEq

/-- Whether an effect touches the durable store. -/
def Effect.isStoreAccess : Effect → Bool
  | .storeQuery => true
  | .storeInsert => true
  | .storeDelete => true
  | _ => false

/-- Cache lookup by exact key (Redis GET). -/
def cacheFind : List (String × CacheEntry) → String → Option CacheEntry
  | [], _ => none
  | (k, e) :: rest, key => if k = key then some e else cacheFind rest key

/-- Cache deletion of the literal key (Redis DEL: the key is taken
literally, glob characters have no special meaning). -/
def cacheRemove : List (String × CacheEntry) → String → List (String × CacheEntry)
  | [], _ => []
  | (k, e) :: rest, key =>
      if k = key then cacheRemove rest key else (k, e) :: cacheRemove rest key

/-- Cache insertion with TTL (Redis SET with EX), replacing any existing
entry for the key. -/
def cacheInsert (c : List (String × CacheEntry)) (key : String) (v : CacheValue)
    (ttl : Nat) : List (String × CacheEntry) :=
  (key, ⟨v, ttl⟩) :: cacheRemove c key

/-- Single-item cache key, f"transaction:\x7btransaction_id\x7d". -/
def itemKey (id : Nat) : String := "transaction:" ++ toString id

/-- List-page cache key, f"transactions:all:\x7bskip\x7d:\x7blimit\x7d". -/
def listKey (skip limit : Nat) : String :=
  "transactions:all:" ++ toString skip ++ ":" ++ toString limit

/-- The literal key passed to cache.delete by create_transaction and
delete_transaction: "transactions:all:*". -/
def wildcardKey : String := "transactions:all:*"

/-- Pydantic validation of TransactionCreate (schemas.TransactionBase):
amount strictly positive, currency exactly 3 characters (defaulting to
"USD" when omitted), merchant present and non-empty. -/
def validateCreate (i : TransactionCreate) : Option ValidatedCreate :=
  match i.merchant with
  | none => none
  | some m =>
      if 0 < i.amount ∧ (i.currency.getD "USD").length = 3 ∧ 1 ≤ m.length then
        some ⟨i.amount, i.currency.getD "USD", i.description, m⟩
      else
        none

/-- The row the store materializes on insert: the client-supplied fields
plus the store-assigned id and timestamp defaults (date and created_at
default to now(), updated_at stays null). -/
def mkRow (st : AppState) (v : ValidatedCreate) : TransactionRow :=
  { id := st.nextId, amount := v.amount, currency := v.currency,
    description := v.description, merchant := v.merchant,
    date := st.now, createdAt := st.now, updatedAt := none }

/-- Outcome of POST /transactions: 201 with the created row, or 422. -/
inductive CreateResult where
  | created (t : TransactionRow)
  | validationError
deriving Repr, DecidableEq

/-- Outcome of GET /transactions/\x7bid\x7d: 200 with the row, or 404.
`badCacheShape` models pydantic failing to re-validate a cached document of
the wrong shape; it is unreachable when the cache only holds documents the
handlers themselves wrote. -/
inductive GetResult where
  | ok (t : TransactionRow)
  | notFound
  | badCacheShape
deriving Repr, DecidableEq

/-- Outcome of GET /transactions. -/
inductive ListResult where
  | ok (p : TransactionList)
  | badCacheShape
deriving Repr, DecidableEq

/-- Outcome of DELETE /transactions/\x7bid\x7d: 204, or 404. -/
inductive DeleteResult where
  | noContent
  | notFound
deriving Repr, DecidableEq

/-- POST /transactions (create_transaction, routers/transactions.py:75-89).
Pydantic validates the body before the handler runs; on failure the
framework answers 422 and the handler body (hence the store) is never
reached.  On success: insert into the store, commit+refresh, then
`cache.delete("transactions:all:*")` — a literal-key delete. -/
def createTransaction (st : AppState) (input : TransactionCreate) :
    CreateResult × AppState × List Effect :=
  match validateCreate input with
  | none => (.validationError, st, [])
  | some v =>
      let row := mkRow st v
      (.created row,
       { st with store := st.store ++ [row], nextId := st.nextId + 1,
                 cache := cacheRemove st.cache wildcardKey },
       [.storeInsert, .cacheDelete wildcardKey])

/-- GET /transactions/\x7bid\x7d (get_transaction,
routers/transactions.py:91-111).  Cache hit: return the cached document, no
store access.  Miss: select by id; absent → 404 (no cache write); present →
cache the response with ttl=300 and return it. -/
def getTransaction (st : AppState) (id : Nat) :
    GetResult × AppState × List Effect :=
  match cacheFind st.cache (itemKey id) with
  | some e =>
      match e.val with
      | .item t => (.ok t, st, [.cacheGet (itemKey id)])
      | .page _ => (.badCacheShape, st, [.cacheGet (itemKey id)])
  | none =>
      match st.store.find? (fun r => r.id == id) with
      | none => (.notFound, st, [.cacheGet (itemKey id), .storeQuery])
      | some t =>
          (.ok t,
           { st with cache := cacheInsert st.cache (itemKey id) (.item t) 300 },
           [.cacheGet (itemKey id), .storeQuery, .cacheSet (itemKey id) 300])

/-- GET /transactions (get_transactions, routers/transactions.py:51-73).
Cache hit: return the cached page verbatim.  Miss: select with
offset=skip, limit=limit; total is the number of rows in the returned page;
cache the page with ttl=60 under the exact (skip, limit) key. -/
def getTransactions (st : AppState) (skip limit : Nat) :
    ListResult × AppState × List Effect :=
  match cacheFind st.cache (listKey skip limit) with
  | some e =>
      match e.val with
      | .page p => (.ok p, st, [.cacheGet (listKey skip limit)])
      | .item _ => (.badCacheShape, st, [.cacheGet (listKey skip limit)])
  | none =>
      let rows := (st.store.drop skip).take limit
      (.ok ⟨rows, rows.length⟩,
       { st with cache := cacheInsert st.cache (listKey skip limit)
                   (.page ⟨rows, rows.length⟩) 60 },
       [.cacheGet (listKey skip limit), .storeQuery,
        .cacheSet (listKey skip limit) 60])

/-- GET /transactions with the query parameters as the caller sent them:
`skip: int = 0, limit: int = 100` — an omitted parameter takes its
default. -/
def getTransactionsEndpoint (st : AppState) (skip limit : Option Nat) :
    ListResult × AppState × List Effect :=
  getTransactions st (skip.getD 0) (limit.getD 100)

/-- DELETE /transactions/\x7bid\x7d (delete_transaction,
routers/transactions.py:113-130).  Select by id; absent → 404, nothing
else happens.  Present: delete the row, commit, delete the single-item
cache key, then delete the literal key "transactions:all:*". -/
def deleteTransaction (st : AppState) (id : Nat) :
    DeleteResult × AppState × List Effect :=
  match st.store.find? (fun r => r.id == id) with
  | none => (.notFound, st, [.storeQuery])
  | some _ =>
      (.noContent,
       { st with store := st.store.filter (fun r => r.id != id),
                 cache := cacheRemove (cacheRemove st.cache (itemKey id)) wildcardKey },
       [.storeQuery, .storeDelete, .cacheDelete (itemKey id),
        .cacheDelete wildcardKey])

/-- GET /health (health_check, routers/transactions.py:19-49), as a
function of whether the trial store query succeeds and whether
cache.ping() returns true. -/
def healthCheck (dbOk redisOk : Bool) : HealthResponse :=
  { status := if (if dbOk then "up" else "down") = "up" ∧
                 (if redisOk then "up" else "down") = "up"
              then "ok" else "degraded",
    database := if dbOk then "up" else "down",
    redis := if redisOk then "up" else "down" }

/-- The page length of a list result, when it is a page. -/
def ListResult.pageLen : ListResult → Option Nat
  | .ok p => some p.transactions.length
  | .badCacheShape => none

/-- The state a handler call leaves behind. -/
def stateAfterCreate (st : AppState) (i : TransactionCreate) : AppState :=
  (createTransaction st i).2.1

/-- The empty initial state: no rows, the store will assign id 1, empty
cache. -/
def initialState : AppState := { store := [], nextId := 1, cache := [], now := 0 }

namespace CacheClient

/-- Outcome of a call into the redis backend: the produced value, or a
raised exception with its message. -/
inductive Outcome (α : Type) where
  | ok (a : α)
  | err (e : String)
deriving Repr

/-- Cache.get (cache.py:17-25): the backend call runs inside try/except; a
raised error is caught, logged, and turned into the miss result None.  The
backend value is the decoded document when the key is present. -/
def get (backend : Outcome (Option CacheValue)) : Outcome (Option CacheValue) :=
  match backend with
  | .ok d => .ok d
  | .err _ => .ok none

/-- Cache.set (cache.py:27-31): a raised backend error is caught and
logged; the method returns normally either way. -/
def set (backend : Outcome Unit) : Outcome Unit :=
  match backend with
  | .ok _ => .ok ()
  | .err _ => .ok ()

/-- Cache.delete (cache.py:33-37): a raised backend error is caught and
logged; the method returns normally either way. -/
def delete (backend : Outcome Unit) : Outcome Unit :=
  match backend with
  | .ok _ => .ok ()
  | .err _ => .ok ()

/-- Cache.ping (cache.py:39-43): a raised error means the liveness probe
reports false. -/
def ping (backend : Outcome Bool) : Bool :=
  match backend with
  | .ok b => b
  | .err _ => false

end CacheClient

/-- Removing one key from the cache cannot make another lookup succeed:
a key absent before a delete is absent after it. -/
theorem cacheFind_cacheRemove_none (c : List (String × CacheEntry)) (k k' : String)
    (h : cacheFind c k = none) : cacheFind (cacheRemove c k') k = none := by
  induction c with
  | nil => rfl
  | cons a rest ih =>
      obtain ⟨ka, ea⟩ := a
      simp only [cacheFind] at h
      by_cases hk : ka = k
      · rw [if_pos hk] at h
        exact Option.noConfusion h
      · rw [if_neg hk] at h
        simp only [cacheRemove]
        by_cases hk' : ka = k'
        · rw [if_pos hk']
          exact ih h
        · rw [if_neg hk']
          simp only [cacheFind]
          rw [if_neg hk]
          exact ih h

/-- create_transaction on a body that passes pydantic validation: the
materialized row is appended to the store, the id counter advances, and
only the literal key "transactions:all:*" is deleted from the cache. -/
theorem createTransaction_valid (st : AppState) (i : TransactionCreate)
    (v : ValidatedCreate) (h : validateCreate i = some v) :
    createTransaction st i =
      (.created (mkRow st v),
       { st with store := st.store ++ [mkRow st v], nextId := st.nextId + 1,
                 cache := cacheRemove st.cache wildcardKey },
       [.storeInsert, .cacheDelete wildcardKey]) := by
  unfold createTransaction
  rw [h]

/-- create_transaction on a body that fails pydantic validation: 422, and
the handler body never runs, so the state is untouched and no backend
effect happens. -/
theorem createTransaction_invalid (st : AppState) (i : TransactionCreate)
    (h : validateCreate i = none) :
    createTransaction st i = (.validationError, st, []) := by
  unfold createTransaction
  rw [h]

/-- get_transaction on a single-item cache hit: the cached document is
returned, the state is untouched, and the only effect is the cache read. -/
theorem getTransaction_hit (st : AppState) (id : Nat) (t : TransactionRow)
    (ttl : Nat) (h : cacheFind st.cache (itemKey id) = some ⟨.item t, ttl⟩) :
    getTransaction st id = (.ok t, st, [.cacheGet (itemKey id)]) := by
  unfold getTransaction
  rw [h]

/-- get_transaction on a cache miss for an id absent from the store: 404,
state untouched (in particular the cache is not populated). -/
theorem getTransaction_miss_absent (st : AppState) (id : Nat)
    (h1 : cacheFind st.cache (itemKey id) = none)
    (h2 : st.store.find? (fun r => r.id == id) = none) :
    getTransaction st id = (.notFound, st, [.cacheGet (itemKey id), .storeQuery]) := by
  unfold getTransaction
  rw [h1, h2]

/-- get_transaction on a cache miss for an id present in the store: the row
is returned and cached under its item key with ttl=300. -/
theorem getTransaction_miss_found (st : AppState) (id : Nat) (t : TransactionRow)
    (h1 : cacheFind st.cache (itemKey id) = none)
    (h2 : st.store.find? (fun r => r.id == id) = some t) :
    getTransaction st id =
      (.ok t, { st with cache := cacheInsert st.cache (itemKey id) (.item t) 300 },
       [.cacheGet (itemKey id), .storeQuery, .cacheSet (itemKey id) 300]) := by
  unfold getTransaction
  rw [h1, h2]

/-- get_transactions on a cache hit: the cached page is returned verbatim,
state untouched, only a cache read happens. -/
theorem getTransactions_hit (st : AppState) (skip limit : Nat)
    (p : TransactionList) (ttl : Nat)
    (h : cacheFind st.cache (listKey skip limit) = some ⟨.page p, ttl⟩) :
    getTransactions st skip limit = (.ok p, st, [.cacheGet (listKey skip limit)]) := by
  unfold getTransactions
  rw [h]

/-- get_transactions on a cache miss: the store is queried with offset=skip
and limit=limit, the page's total is the length of the returned rows, and
the page is cached with ttl=60 under the exact (skip, limit) key. -/
theorem getTransactions_miss (st : AppState) (skip limit : Nat)
    (h : cacheFind st.cache (listKey skip limit) = none) :
    getTransactions st skip limit =
      (.ok ⟨(st.store.drop skip).take limit, ((st.store.drop skip).take limit).length⟩,
       { st with cache := cacheInsert st.cache (listKey skip limit)
                   (.page ⟨(st.store.drop skip).take limit,
                           ((st.store.drop skip).take limit).length⟩) 60 },
       [.cacheGet (listKey skip limit), .storeQuery,
        .cacheSet (listKey skip limit) 60]) := by
  unfold getTransactions
  rw [h]

/-- delete_transaction on an id absent from the store: 404, and nothing
else happens (state untouched, the only effect is the existence query). -/
theorem deleteTransaction_absent (st : AppState) (id : Nat)
    (h : st.store.find? (fun r => r.id == id) = none) :
    deleteTransaction st id = (.notFound, st, [.storeQuery]) := by
  unfold deleteTransaction
  rw [h]

/-- delete_transaction on an id present in the store: 204, the row is
removed, the single-item key is deleted, then the literal key
"transactions:all:*" is deleted. -/
theorem deleteTransaction_found (st : AppState) (id : Nat) (t : TransactionRow)
    (h : st.store.find? (fun r => r.id == id) = some t) :
    deleteTransaction st id =
      (.noContent,
       { st with store := st.store.filter (fun r => r.id != id),
                 cache := cacheRemove (cacheRemove st.cache (itemKey id)) wildcardKey },
       [.storeQuery, .storeDelete, .cacheDelete (itemKey id),
        .cacheDelete wildcardKey]) := by
  unfold deleteTransaction
  rw [h]

/-- A list page cached before the create under the (0, 100) key. -/
def c1CachedPage : TransactionList := { transactions := [], total := 0 }

/-- State holding a cached list page for (skip, limit) = (0, 100). -/
def c1State : AppState :=
  { store := [], nextId := 1,
    cache := [(listKey 0 100, ⟨CacheValue.page c1CachedPage, 60⟩)], now := 5 }

/-- A valid create body. -/
def c1Input : TransactionCreate :=
  { amount := 5, currency := none, description := none, merchant := some "Shop" }

/-- Claim C1: after a successful create, every previously cached list page
is supposed to be invalidated.  The code instead deletes only the literal
key "transactions:all:*" (Redis DEL does not interpret glob patterns), so
the page cached under "transactions:all:0:100" before the create survives:
the create succeeds and inserts a row, yet a subsequent list(0, 100) serves
the pre-create cached page, which does not contain the new row. -/
theorem c1_create_leaves_stale_list_page :
    (createTransaction c1State c1Input).1 =
      .created ⟨1, 5, "USD", none, "Shop", 5, 5, none⟩ ∧
    (createTransaction c1State c1Input).2.1.store ≠ [] ∧
    (getTransactions (createTransaction c1State c1Input).2.1 0 100).1 =
      .ok c1CachedPage ∧
    c1CachedPage.transactions = [] := by decide

/-- Claim C2: for a valid input (positive amount, 3-character currency
after defaulting, non-empty merchant), create followed by get_by_id on the
assigned id returns a transaction whose amount, currency, merchant and
description equal the input's.  The store-id hypothesis `hids` is the store
invariant that already-assigned ids are below the id counter, and `hmiss`
says the (never written by create) single-item cache has no entry for the
fresh id. -/
theorem c2_create_then_get_roundtrip (st : AppState) (input : TransactionCreate)
    (m : String)
    (hm : input.merchant = some m)
    (ha : 0 < input.amount)
    (hc : (input.currency.getD "USD").length = 3)
    (hmlen : 1 ≤ m.length)
    (hmiss : cacheFind st.cache (itemKey st.nextId) = none)
    (hids : ∀ t ∈ st.store, t.id < st.nextId) :
    (createTransaction st input).1 =
      .created (mkRow st ⟨input.amount, input.currency.getD "USD", input.description, m⟩) ∧
    (getTransaction (createTransaction st input).2.1
        (mkRow st ⟨input.amount, input.currency.getD "USD", input.description, m⟩).id).1 =
      .ok (mkRow st ⟨input.amount, input.currency.getD "USD", input.description, m⟩) ∧
    (mkRow st ⟨input.amount, input.currency.getD "USD", input.description, m⟩).amount
      = input.amount ∧
    (mkRow st ⟨input.amount, input.currency.getD "USD", input.description, m⟩).currency
      = input.currency.getD "USD" ∧
    (mkRow st ⟨input.amount, input.currency.getD "USD", input.description, m⟩).merchant
      = m ∧
    (mkRow st ⟨input.amount, input.currency.getD "USD", input.description, m⟩).description
      = input.description := by
  have hval : validateCreate input =
      some ⟨input.amount, input.currency.getD "USD", input.description, m⟩ := by
    unfold validateCreate
    rw [hm]
    dsimp only
    rw [if_pos ⟨ha, hc, hmlen⟩]
  have hcreate := createTransaction_valid st input
    ⟨input.amount, input.currency.getD "USD", input.description, m⟩ hval
  set v : ValidatedCreate := ⟨input.amount, input.currency.getD "USD", input.description, m⟩
  have hmiss1 : cacheFind (cacheRemove st.cache wildcardKey) (itemKey st.nextId) = none :=
    cacheFind_cacheRemove_none st.cache (itemKey st.nextId) wildcardKey hmiss
  have hfind0 : st.store.find? (fun r => r.id == st.nextId) = none := by
    rw [List.find?_eq_none]
    intro x hx
    simp only [beq_iff_eq]
    exact Nat.ne_of_lt (hids x hx)
  have hfind : (st.store ++ [mkRow st v]).find? (fun r => r.id == st.nextId)
      = some (mkRow st v) := by
    rw [List.find?_append, hfind0, Option.none_or]
    exact List.find?_cons_of_pos _ (by simp [mkRow])
  refine ⟨?_, ?_, rfl, rfl, rfl, rfl⟩
  · rw [hcreate]
  · rw [hcreate]
    have hget := getTransaction_miss_found
      { st with store := st.store ++ [mkRow st v], nextId := st.nextId + 1,
                cache := cacheRemove st.cache wildcardKey }
      st.nextId (mkRow st v) hmiss1 hfind
    rw [show (mkRow st v).id = st.nextId from rfl, hget]

/-- Claim C3: an input with non-positive amount, or missing or empty
merchant, or a resolved currency whose length is not 3, makes create answer
422 with the state untouched (no row created) and an empty effect list (no
store access at all): validation runs before the handler body. -/
theorem c3_invalid_input_no_store_write (st : AppState) (input : TransactionCreate)
    (h : input.amount ≤ 0 ∨ input.merchant = none ∨ input.merchant = some "" ∨
         (input.currency.getD "USD").length ≠ 3) :
    createTransaction st input = (.validationError, st, []) := by
  have hval : validateCreate input = none := by
    unfold validateCreate
    cases hm : input.merchant with
    | none => rfl
    | some m =>
        dsimp only
        rw [if_neg]
        rintro ⟨h1, h2, h3⟩
        rcases h with hh | hh | hh | hh
        · exact absurd h1 (not_lt.mpr hh)
        · rw [hm] at hh
          exact Option.noConfusion hh
        · rw [hm] at hh
          injection hh with hh
          subst hh
          exact absurd h3 (by decide)
        · exact hh h2
  exact createTransaction_invalid st input hval

/-- Claim C4: when the single-item cache holds an entry for the id,
get_by_id returns the cached value with the state untouched and no store
access; hence a second get_by_id on the resulting state returns the
identical result (and again performs no store access). -/
theorem c4_cache_hit_skips_store (st : AppState) (id : Nat) (t : TransactionRow)
    (ttl : Nat) (h : cacheFind st.cache (itemKey id) = some ⟨.item t, ttl⟩) :
    getTransaction st id = (.ok t, st, [.cacheGet (itemKey id)]) ∧
    getTransaction (getTransaction st id).2.1 id = getTransaction st id ∧
    ∀ e ∈ (getTransaction st id).2.2, e.isStoreAccess = false := by
  have h1 := getTransaction_hit st id t ttl h
  refine ⟨h1, ?_, ?_⟩
  · rw [h1]
    exact h1
  · rw [h1]
    intro e he
    simp only [List.mem_singleton] at he
    subst he
    rfl

/-- Claim C5: on a single-item cache miss, get_by_id queries the store; if
the id is absent it answers 404 leaving the state (in particular the cache)
untouched, and if present it returns the row and populates the single-item
cache entry with ttl=300. -/
theorem c5_cache_miss_reads_store (st : AppState) (id : Nat)
    (hmiss : cacheFind st.cache (itemKey id) = none) :
    (st.store.find? (fun r => r.id == id) = none →
       getTransaction st id = (.notFound, st, [.cacheGet (itemKey id), .storeQuery])) ∧
    (∀ t, st.store.find? (fun r => r.id == id) = some t →
       getTransaction st id =
         (.ok t, { st with cache := cacheInsert st.cache (itemKey id) (.item t) 300 },
          [.cacheGet (itemKey id), .storeQuery, .cacheSet (itemKey id) 300])) :=
  ⟨fun h2 => getTransaction_miss_absent st id hmiss h2,
   fun t h2 => getTransaction_miss_found st id t hmiss h2⟩

/-- The row present in the store before the delete. -/
def c6Row : TransactionRow :=
  { id := 1, amount := 7, currency := "USD", description := none,
    merchant := "Shop", date := 0, createdAt := 0, updatedAt := none }

/-- State with one row, its single-item cache entry, and a cached list page
for (0, 100) containing the row. -/
def c6State : AppState :=
  { store := [c6Row], nextId := 2,
    cache := [(listKey 0 100, ⟨CacheValue.page ⟨[c6Row], 1⟩, 60⟩),
              (itemKey 1, ⟨CacheValue.item c6Row, 300⟩)], now := 1 }

/-- Claim C6: delete of an existing id is supposed to invalidate the
single-item entry and the list-cache namespace.  The delete does answer
204, removes the row, and removes the single-item entry — but the
list-cache namespace is not invalidated: the handler deletes only the
literal key "transactions:all:*", so the page cached under
"transactions:all:0:100" before the delete is still served afterwards and
still contains the deleted row. -/
theorem c6_delete_leaves_stale_list_page :
    (deleteTransaction c6State 1).1 = .noContent ∧
    (deleteTransaction c6State 1).2.1.store = [] ∧
    cacheFind (deleteTransaction c6State 1).2.1.cache (itemKey 1) = none ∧
    (getTransactions (deleteTransaction c6State 1).2.1 0 100).1 =
      .ok ⟨[c6Row], 1⟩ := by decide

/-- A valid create body used for the pagination scenario. -/
def c7Input : TransactionCreate :=
  { amount := 42, currency := some "USD", description := none,
    merchant := some "Coffee Shop" }

/-- The state after creating five records from the initial state. -/
def c7FiveCreated : AppState :=
  stateAfterCreate (stateAfterCreate (stateAfterCreate (stateAfterCreate
    (stateAfterCreate initialState c7Input) c7Input) c7Input) c7Input) c7Input

/-- Claim C7: on a list-cache miss the store is queried with offset=skip
and limit=limit (so the page holds at most limit rows), the page total is
the number of rows actually returned, and the page is cached with ttl=60
under the exact (skip, limit) key; on a hit the cached page is returned
verbatim; and after creating five records, list(0, 2) returns exactly two
transactions. -/
theorem c7_list_pagination (st : AppState) (skip limit : Nat) :
    (cacheFind st.cache (listKey skip limit) = none →
       getTransactions st skip limit =
         (.ok ⟨(st.store.drop skip).take limit, ((st.store.drop skip).take limit).length⟩,
          { st with cache := cacheInsert st.cache (listKey skip limit)
                      (.page ⟨(st.store.drop skip).take limit,
                              ((st.store.drop skip).take limit).length⟩) 60 },
          [.cacheGet (listKey skip limit), .storeQuery,
           .cacheSet (listKey skip limit) 60]) ∧
       ((st.store.drop skip).take limit).length ≤ limit) ∧
    (∀ p ttl, cacheFind st.cache (listKey skip limit) = some ⟨.page p, ttl⟩ →
       getTransactions st skip limit = (.ok p, st, [.cacheGet (listKey skip limit)])) ∧
    (getTransactions c7FiveCreated 0 2).1.pageLen = some 2 := by
  refine ⟨fun h => ⟨getTransactions_miss st skip limit h, ?_⟩,
          fun p ttl h => getTransactions_hit st skip limit p ttl h,
          by decide⟩
  rw [List.length_take]
  exact min_le_left _ _

/-- Claim C8: the Cache client wrapper absorbs every backend failure: a
failing backend get is answered exactly like a missing key (absent), a
failing backend set or delete returns normally, and no wrapper call ever
surfaces a backend error to its caller. -/
theorem c8_cache_errors_swallowed :
    (∀ e, CacheClient.get (.err e) = .ok none) ∧
    (∀ e, CacheClient.get (.err e) = CacheClient.get (.ok none)) ∧
    (∀ e, CacheClient.set (.err e) = .ok ()) ∧
    (∀ e, CacheClient.delete (.err e) = .ok ()) ∧
    (∀ b, ∃ v, CacheClient.get b = .ok v) ∧
    (∀ b, CacheClient.set b = .ok ()) ∧
    (∀ b, CacheClient.delete b = .ok ()) := by
  refine ⟨fun e => rfl, fun e => rfl, fun e => rfl, fun e => rfl, ?_, ?_, ?_⟩
  · intro b
    cases b with
    | ok d => exact ⟨d, rfl⟩
    | err e => exact ⟨none, rfl⟩
  · intro b
    cases b <;> rfl
  · intro b
    cases b <;> rfl

/-- Claim C9: the health status is "ok" exactly when both the store trial
query succeeds and the cache ping returns true, and "degraded" in every
other case (no third overall value), while the database and redis fields
individually report "up" or "down" per their own probe. -/
theorem c9_health_status (dbOk redisOk : Bool) :
    ((healthCheck dbOk redisOk).status = "ok" ↔ dbOk = true ∧ redisOk = true) ∧
    ((healthCheck dbOk redisOk).status = "ok" ∨
     (healthCheck dbOk redisOk).status = "degraded") ∧
    (healthCheck dbOk redisOk).database = (if dbOk then "up" else "down") ∧
    (healthCheck dbOk redisOk).redis = (if redisOk then "up" else "down") := by
  cases dbOk <;> cases redisOk <;> exact (by decide)

/-- Claim C10: with both query parameters omitted, list runs with skip=0
and limit=100; on a miss the page holds at most 100 transactions and is
cached under the key for the exact (0, 100) pair. -/
theorem c10_list_defaults (st : AppState) :
    getTransactionsEndpoint st none none = getTransactions st 0 100 ∧
    (cacheFind st.cache (listKey 0 100) = none →
       (getTransactionsEndpoint st none none).2.2 =
         [.cacheGet (listKey 0 100), .storeQuery, .cacheSet (listKey 0 100) 60] ∧
       (getTransactionsEndpoint st none none).1.pageLen =
         some ((st.store.drop 0).take 100).length ∧
       ((st.store.drop 0).take 100).length ≤ 100) := by
  refine ⟨rfl, fun h => ?_⟩
  have hm := getTransactions_miss st 0 100 h
  refine ⟨?_, ?_, ?_⟩
  · show (getTransactions st 0 100).2.2 = _
    rw [hm]
  · show (getTransactions st 0 100).1.pageLen = _
    rw [hm]
    rfl
  · rw [List.length_take]
    exact min_le_left _ _

/-- A valid create body for the round-trip witness. -/
def c2Input : TransactionCreate :=
  { amount := 42, currency := some "USD", description := some "latte",
    merchant := some "Coffee Shop" }

/-- Witness for C2: the round-trip at a concrete state and input. -/
theorem c2_create_then_get_roundtrip_witness :
    (createTransaction initialState c2Input).1 =
      .created (mkRow initialState ⟨42, "USD", some "latte", "Coffee Shop"⟩) ∧
    (getTransaction (createTransaction initialState c2Input).2.1
        (mkRow initialState ⟨42, "USD", some "latte", "Coffee Shop"⟩).id).1 =
      .ok (mkRow initialState ⟨42, "USD", some "latte", "Coffee Shop"⟩) := by
  have h := c2_create_then_get_roundtrip initialState c2Input "Coffee Shop"
    rfl (by decide) (by decide) (by decide) rfl
    (by intro t ht; exact absurd ht (List.not_mem_nil t))
  exact ⟨h.1, h.2.1⟩

/-- An invalid create body: non-positive amount. -/
def c3Input : TransactionCreate :=
  { amount := -1, currency := some "USD", description := none,
    merchant := some "Shop" }

/-- Witness for C3: a create with amount = -1 answers 422 and performs no
effect. -/
theorem c3_invalid_input_no_store_write_witness :
    createTransaction initialState c3Input = (.validationError, initialState, []) :=
  c3_invalid_input_no_store_write initialState c3Input (Or.inl (by decide))

/-- The cached row for the C4 witness. -/
def c4Row : TransactionRow :=
  { id := 1, amount := 3, currency := "USD", description := none,
    merchant := "Shop", date := 0, createdAt := 0, updatedAt := none }

/-- State whose single-item cache holds the entry for id 1. -/
def c4State : AppState :=
  { store := [c4Row], nextId := 2,
    cache := [(itemKey 1, ⟨CacheValue.item c4Row, 300⟩)], now := 0 }

/-- Witness for C4: a concrete cache hit is served twice identically with
no store access. -/
theorem c4_cache_hit_skips_store_witness :
    getTransaction c4State 1 = (.ok c4Row, c4State, [.cacheGet (itemKey 1)]) ∧
    getTransaction (getTransaction c4State 1).2.1 1 = getTransaction c4State 1 := by
  have h := c4_cache_hit_skips_store c4State 1 c4Row 300 (by decide)
  exact ⟨h.1, h.2.1⟩

/-- The stored row for the C5 witness. -/
def c5Row : TransactionRow :=
  { id := 1, amount := 3, currency := "USD", description := none,
    merchant := "Shop", date := 0, createdAt := 0, updatedAt := none }

/-- State with one stored row and an empty cache. -/
def c5State : AppState := { store := [c5Row], nextId := 2, cache := [], now := 0 }

/-- Witness for C5: on concrete cache misses, an absent id answers 404
without populating the cache, and a present id is returned and cached with
ttl=300. -/
theorem c5_cache_miss_reads_store_witness :
    getTransaction c5State 9 = (.notFound, c5State, [.cacheGet (itemKey 9), .storeQuery]) ∧
    getTransaction c5State 1 =
      (.ok c5Row,
       { c5State with cache := cacheInsert c5State.cache (itemKey 1) (.item c5Row) 300 },
       [.cacheGet (itemKey 1), .storeQuery, .cacheSet (itemKey 1) 300]) :=
  ⟨(c5_cache_miss_reads_store c5State 9 rfl).1 (by decide),
   (c5_cache_miss_reads_store c5State 1 rfl).2 c5Row (by decide)⟩

/-- A cached page for the C7 hit witness. -/
def c7Page : TransactionList := { transactions := [], total := 0 }

/-- State whose list cache holds a page under the (0, 2) key. -/
def c7HitState : AppState :=
  { store := [], nextId := 1,
    cache := [(listKey 0 2, ⟨CacheValue.page c7Page, 60⟩)], now := 0 }

/-- Witness for C7: a concrete miss queries and caches with ttl=60, and a
concrete hit returns the cached page verbatim. -/
theorem c7_list_pagination_witness :
    getTransactions initialState 0 2 =
      (.ok ⟨[], 0⟩,
       { initialState with
           cache := cacheInsert initialState.cache (listKey 0 2) (.page ⟨[], 0⟩) 60 },
       [.cacheGet (listKey 0 2), .storeQuery, .cacheSet (listKey 0 2) 60]) ∧
    getTransactions c7HitState 0 2 = (.ok c7Page, c7HitState, [.cacheGet (listKey 0 2)]) :=
  ⟨((c7_list_pagination initialState 0 2).1 rfl).1,
   (c7_list_pagination c7HitState 0 2).2.1 c7Page 60 (by decide)⟩

/-- Witness for C8: a concrete backend failure is swallowed by all three
wrapper operations. -/
theorem c8_cache_errors_swallowed_witness :
    CacheClient.get (.err "connection refused") = .ok none ∧
    CacheClient.set (.err "connection refused") = .ok () ∧
    CacheClient.delete (.err "connection refused") = .ok () :=
  ⟨c8_cache_errors_swallowed.1 "connection refused",
   c8_cache_errors_swallowed.2.2.1 "connection refused",
   c8_cache_errors_swallowed.2.2.2.1 "connection refused"⟩

/-- Witness for C9: the degraded scenario of the spec — store reachable,
cache unreachable. -/
theorem c9_health_status_witness :
    (healthCheck true false).status = "degraded" ∧
    (healthCheck true false).database = "up" ∧
    (healthCheck true false).redis = "down" := by
  obtain ⟨hiff, hok | hdeg, hdb, hr⟩ := c9_health_status true false
  · exact absurd (hiff.mp hok).2 (by decide)
  · exact ⟨hdeg, by rw [hdb]; rfl, by rw [hr]; rfl⟩

/-- Witness for C10: the defaulted call at the initial state. -/
theorem c10_list_defaults_witness :
    getTransactionsEndpoint initialState none none = getTransactions initialState 0 100 ∧
    (getTransactionsEndpoint initialState none none).2.2 =
      [.cacheGet (listKey 0 100), .storeQuery, .cacheSet (listKey 0 100) 60] := by
  have h := c10_list_defaults initialState
  exact ⟨h.1, (h.2 rfl).1⟩

end ExpenseTracker


